import Mathlib

/-!
Shallow embedding of the instareach single-page client
(src/client/src/App.jsx, the later variant of the screen).

The component's React state hooks become the fields of `AppState`; each
async handler becomes a pure function from the current state and the
outcome of its one fetch call to the next state (plus the list of
requests it dispatched).  JavaScript `null`/`undefined` string values are
`Option String`, with the empty string falsy like in JS; parsed JSON
response bodies are structures with optional fields; a fetch that throws
(transport failure or unparseable body) is the `exn` outcome carrying the
thrown error's message.  Each handler is split into a `...Pre` function
(the state mutations the source performs before `fetch` is awaited) and a
`...Complete` function (the mutations performed once the response or
exception arrives), so that ordering relative to request dispatch is
visible in the model.
-/

/-- JS truthiness of a possibly-null/undefined string: null, undefined and
the empty string are falsy. -/
def jsTruthy : Option String → Bool
  | none => false
  | some s => !(s == "")

/-- JS `v || fb` on a possibly-null/undefined string `v` with string
fallback `fb`. -/
def jsOrStr (v : Option String) (fb : String) : String :=
  match v with
  | some s => if s = "" then fb else s
  | none => fb

/-- Parsed JSON body of the code-exchange endpoint response
(`/auth/callback`): `{ accessToken, igBusinessId }` on success, possibly
`{ error }` on failure; every field may be absent. -/
structure AuthBody where
  accessToken : Option String
  igBusinessId : Option String
  error : Option String
  deriving DecidableEq, Repr

/-- One element of a metric record's `values` array; its `value` field may
be absent. -/
structure MetricValueObj where
  value : Option ℚ
  deriving DecidableEq, Repr

/-- One metric record of the post-metrics response:
`{ name, description, values: [{ value }] }`, with `description` and
`values` possibly absent. -/
structure MetricRecord where
  name : String
  description : Option String
  values : Option (List MetricValueObj)
  deriving DecidableEq, Repr

/-- Parsed JSON body of the post-metrics endpoint response:
`{ data: [ metric record ] }` on success, possibly `{ error }` on
failure. -/
structure MetricsBody where
  data : Option (List MetricRecord)
  error : Option String
  deriving DecidableEq, Repr

/-- The `user` object of the account-search response. -/
structure AccountUser where
  username : String
  deriving DecidableEq, Repr

/-- One media item of the account-search response. -/
structure MediaItem where
  id : String
  timestamp : String
  caption : Option String
  permalink : String
  deriving DecidableEq, Repr

/-- Parsed JSON body of the account-search endpoint response:
`{ user, media }` on success, possibly `{ error, details }` on failure. -/
structure AccountBody where
  user : Option AccountUser
  media : Option (List MediaItem)
  error : Option String
  details : Option String
  deriving DecidableEq, Repr

/-- Parsed JSON body of the login-initiation endpoint response:
`{ url }` on success, possibly `{ error }` on failure. -/
structure LoginBody where
  url : Option String
  error : Option String
  deriving DecidableEq, Repr

/-- Outcome of one `fetch` call as the handler observes it: `resp ok body`
is a response whose body parsed as JSON, with `ok` true iff the HTTP
status was 2xx; `exn msg` is a thrown exception (transport failure or a
body that failed to parse), carrying the exception's `message` string. -/
inductive FetchResult (β : Type) where
  | resp (ok : Bool) (body : β)
  | exn (msg : String)
  deriving DecidableEq, Repr

/-- A network request dispatched by a handler, identified by endpoint and
payload. -/
inductive Request where
  | authCallback (code : String)
  | loginInit
  | postMetrics (postUrl : String) (accessToken igBusinessId : Option String)
  | searchAccount (username : String) (accessToken igBusinessId : Option String)
  deriving DecidableEq, Repr

/-- The component's mutable state: one field per `useState` hook of
`App`, plus the two pieces of browser state the handlers touch — the
visible URL's query parameters (read on mount, cleared by
`history.replaceState`) and the navigation target (set by assigning
`window.location.href`). -/
structure AppState where
  isAuthenticated : Bool
  accessToken : Option String
  igBusinessId : Option String
  postUrl : String
  metrics : Option MetricsBody
  error : Option String
  loading : Bool
  username : String
  accountData : Option AccountBody
  searchError : Option String
  urlQuery : List (String × String)
  navTarget : Option String
  deriving DecidableEq, Repr

/-- State at page load: every hook at its `useState` initial value, the
URL query as the browser delivered it, no navigation pending. -/
def initialState (query : List (String × String)) : AppState :=
  { isAuthenticated := false
    accessToken := none
    igBusinessId := none
    postUrl := ""
    metrics := none
    error := none
    loading := false
    username := ""
    accountData := none
    searchError := none
    urlQuery := query
    navTarget := none }

/-- `URLSearchParams.get key`: the value of the first query parameter with
the given key, or null. -/
def getQueryParam (query : List (String × String)) (key : String) : Option String :=
  (query.find? (fun p => p.1 = key)).map (fun p => p.2)

/-- State mutations `handleAuthCallback` performs before awaiting the
fetch: `setLoading(true); setError(null)`. -/
def handleAuthCallbackPre (s : AppState) : AppState :=
  { s with loading := true, error := none }

/-- State mutations `handleAuthCallback` performs once the fetch settles.
On an ok response it stores `data.accessToken` and `data.igBusinessId`,
sets `isAuthenticated`, and `history.replaceState` clears the query
string.  On a non-ok response it throws
`Error(data.error || "Authentication failed")` and the catch block sets
`error` to `error.message || "Authentication failed. Please try again."`;
a thrown exception lands in the same catch.  The finally block clears
`loading` on every path. -/
def handleAuthCallbackComplete (s : AppState) (r : FetchResult AuthBody) : AppState :=
  match r with
  | .resp true body =>
      { s with accessToken := body.accessToken
               igBusinessId := body.igBusinessId
               isAuthenticated := true
               urlQuery := []
               loading := false }
  | .resp false body =>
      { s with error := some (jsOrStr (some (jsOrStr body.error "Authentication failed"))
                 "Authentication failed. Please try again.")
               loading := false }
  | .exn msg =>
      { s with error := some (jsOrStr (some msg) "Authentication failed. Please try again.")
               loading := false }

/-- The whole `handleAuthCallback` run: pre-fetch mutations, then the
settlement mutations. -/
def handleAuthCallback (s : AppState) (r : FetchResult AuthBody) : AppState :=
  handleAuthCallbackComplete (handleAuthCallbackPre s) r

/-- The mount effect: read the `code` query parameter; if it is truthy,
call `handleAuthCallback(code)` (dispatching the one code-exchange
request); otherwise do nothing.  Returns the requests dispatched and the
resulting state. -/
def mount (s : AppState) (r : FetchResult AuthBody) : List Request × AppState :=
  match getQueryParam s.urlQuery "code" with
  | some code =>
      if code = "" then ([], s)
      else ([Request.authCallback code], handleAuthCallback s r)
  | none => ([], s)

/-- State mutations `handleLogin` performs before awaiting the fetch:
`setError(null)` only (it does not touch `loading`). -/
def handleLoginPre (s : AppState) : AppState :=
  { s with error := none }

/-- Settlement of `handleLogin`: on an ok response it assigns
`window.location.href = data.url` (a full navigation; an absent `url`
coerces to the string "undefined"); on a non-ok response it throws
`Error(data.error || "Failed to initialize login")` and the catch sets
`error` to `error.message || "Failed to initialize login. Please try
again."`; a thrown exception lands in the same catch. -/
def handleLoginComplete (s : AppState) (r : FetchResult LoginBody) : AppState :=
  match r with
  | .resp true body =>
      { s with navTarget := some (body.url.getD "undefined") }
  | .resp false body =>
      { s with error := some (jsOrStr (some (jsOrStr body.error "Failed to initialize login"))
                 "Failed to initialize login. Please try again.") }
  | .exn msg =>
      { s with error := some (jsOrStr (some msg) "Failed to initialize login. Please try again.") }

/-- The whole `handleLogin` run: it always dispatches the login-initiation
request (no guard), then settles. -/
def handleLogin (s : AppState) (r : FetchResult LoginBody) : List Request × AppState :=
  ([Request.loginInit], handleLoginComplete (handleLoginPre s) r)

/-- State mutations `handleSubmit` performs before awaiting the fetch:
`setLoading(true); setError(null); setMetrics(null)`. -/
def handleSubmitPre (s : AppState) : AppState :=
  { s with loading := true, error := none, metrics := none }

/-- Settlement of `handleSubmit`: on an ok response it stores the body via
`setMetrics(data)`; on a non-ok response it throws
`Error(data.error || "Failed to fetch post metrics")` and the catch sets
`error` to `error.message || "Failed to fetch post metrics. Please check
the URL and try again."`; a thrown exception lands in the same catch.
The finally block clears `loading` on every path. -/
def handleSubmitComplete (s : AppState) (r : FetchResult MetricsBody) : AppState :=
  match r with
  | .resp true body =>
      { s with metrics := some body, loading := false }
  | .resp false body =>
      { s with error := some (jsOrStr (some (jsOrStr body.error "Failed to fetch post metrics"))
                 "Failed to fetch post metrics. Please check the URL and try again.")
               loading := false }
  | .exn msg =>
      { s with error := some (jsOrStr (some msg)
                 "Failed to fetch post metrics. Please check the URL and try again.")
               loading := false }

/-- The whole `handleSubmit` run: the `if (!postUrl) return` guard aborts
with no request and no state change; otherwise the pre-fetch mutations
happen, the post-metrics request is dispatched, and the call settles. -/
def handleSubmit (s : AppState) (r : FetchResult MetricsBody) : List Request × AppState :=
  if s.postUrl = "" then ([], s)
  else ([Request.postMetrics s.postUrl s.accessToken s.igBusinessId],
        handleSubmitComplete (handleSubmitPre s) r)

/-- Message of the TypeError raised when the success-path log statements
`console.log(data.user.username)` / `console.log(data.media.length)` read
a property of an absent `user` or `media` field.  The exact text is
runtime-dependent; the model only relies on it being some nonempty
string. -/
def undefinedReadMsg : String :=
  "Cannot read properties of undefined"

/-- State mutations `handleAccountSearch` performs before awaiting the
fetch: `setLoading(true); setSearchError(null); setAccountData(null)`. -/
def handleAccountSearchPre (s : AppState) : AppState :=
  { s with loading := true, searchError := none, accountData := none }

/-- Settlement of `handleAccountSearch`: on an ok response it stores the
body via `setAccountData(data)`, then logs `data.user.username` and
`data.media.length` — which throws a TypeError when `user` or `media` is
absent, landing in the catch, which sets `searchError`.  On a non-ok
response it throws `Error(data.error || data.details || "Failed to search
account")` and the catch sets `searchError` to `error.message || "Failed
to search account. Please try again."`.  The finally block clears
`loading` on every path. -/
def handleAccountSearchComplete (s : AppState) (r : FetchResult AccountBody) : AppState :=
  match r with
  | .resp true body =>
      if body.user.isNone || body.media.isNone then
        { s with accountData := some body
                 searchError := some undefinedReadMsg
                 loading := false }
      else
        { s with accountData := some body, loading := false }
  | .resp false body =>
      { s with searchError := some (jsOrStr
                 (some (jsOrStr body.error (jsOrStr body.details "Failed to search account")))
                 "Failed to search account. Please try again.")
               loading := false }
  | .exn msg =>
      { s with searchError := some (jsOrStr (some msg)
                 "Failed to search account. Please try again.")
               loading := false }

/-- The whole `handleAccountSearch` run: the guard
`if (!username || !accessToken || !igBusinessId) return` aborts with no
request and no state change; otherwise the pre-fetch mutations happen,
the search request is dispatched, and the call settles. -/
def handleAccountSearch (s : AppState) (r : FetchResult AccountBody) : List Request × AppState :=
  if s.username = "" ∨ jsTruthy s.accessToken = false ∨ jsTruthy s.igBusinessId = false then
    ([], s)
  else ([Request.searchAccount s.username s.accessToken s.igBusinessId],
        handleAccountSearchComplete (handleAccountSearchPre s) r)

/-- The result panel guard `metrics && metrics.data && (...)`: the metric
cards are rendered only when a metrics body is stored and its `data`
field is present (a JSON array is always truthy). -/
def cardsShown (m : Option MetricsBody) : Bool :=
  match m with
  | some b => b.data.isSome
  | none => false

/-- `Array.prototype.find` on the data list with the predicate
`metric => metric.name === nm`: the first record whose name matches. -/
def findMetric (data : List MetricRecord) (nm : String) : Option MetricRecord :=
  data.find? (fun m => m.name = nm)

/-- Evaluation of the card expression
`metrics.data.find(m => m.name === nm)?.values[0]?.value`.  The optional
chain after `find` short-circuits the whole chain to undefined when no
record matches (`Except.ok none`); a matched record whose `values` field
is absent throws a TypeError (`Except.error ()`), because `?.values[0]`
only guards the record itself, not its `values` field; an empty `values`
array makes `values[0]` undefined and the trailing `?.value` guard
short-circuits; otherwise the result is the first element's `value` field
(itself possibly absent). -/
def chainValue (data : List MetricRecord) (nm : String) : Except Unit (Option ℚ) :=
  match findMetric data nm with
  | none => Except.ok none
  | some r =>
      match r.values with
      | none => Except.error ()
      | some vs =>
          match vs.head? with
          | none => Except.ok none
          | some v => Except.ok v.value

/-- The number shown by one of the four plain cards (likes, comments,
total plays, initial plays): the chain value with the `|| 0` fallback, so
an undefined chain result renders 0. -/
def renderPlainCard (data : List MetricRecord) (nm : String) : Except Unit ℚ :=
  (chainValue data nm).map (fun v => v.getD 0)

/-- What the view-time card's value expression produces: `numR q` is a
plain number `q`, `fixed1 q` is the string `q.toFixed(1)` (the number
rendered with exactly one decimal), `nanStr` is the string "NaN". -/
inductive Rendered where
  | numR (q : ℚ)
  | fixed1 (q : ℚ)
  | nanStr
  deriving DecidableEq, Repr

/-- The view-time card's expression
`(chain / 1000).toFixed(1) || 0`: when the chain value is a number `q`,
it renders `(q / 1000).toFixed(1)`, a nonempty (hence truthy) one-decimal
numeric string; when the chain value is undefined, `undefined / 1000` is
NaN and `NaN.toFixed(1)` is the string "NaN", which is truthy, so the
`|| 0` fallback never applies and "NaN" is rendered. -/
def renderViewTimeCard (data : List MetricRecord) : Except Unit Rendered :=
  (chainValue data "ig_reels_video_view_total_time").map (fun v =>
    match v with
    | some q => Rendered.fixed1 (q / 1000)
    | none => Rendered.nanStr)

/-- The error banner's colour class:
`error === "This authorization code has been used." ? "text-green-400" :
"text-red-700"`. -/
def errorBannerClass (e : String) : String :=
  if e = "This authorization code has been used." then "text-green-400" else "text-red-700"

/-- The rendered error banner: its colour class and the error text shown
verbatim. -/
def errorBanner (e : String) : String × String :=
  (errorBannerClass e, e)

/-- Two metrics-fetch submissions in flight at once: both submissions'
pre-fetch mutations run, then the two settlements apply in the order the
responses resolve (`rFirst` resolves first, `rSecond` last). -/
def twoInFlightSubmit (s : AppState) (rFirst rSecond : FetchResult MetricsBody) : AppState :=
  handleSubmitComplete (handleSubmitComplete (handleSubmitPre (handleSubmitPre s)) rFirst) rSecond

/-! Helper lemmas about the JS `||` fallback. -/

theorem jsOrStr_some_ne (s fb : String) (h : s ≠ "") : jsOrStr (some s) fb = s := by
  simp [jsOrStr, h]

theorem jsOrStr_none (fb : String) : jsOrStr none fb = fb := rfl

theorem jsOrStr_some_empty (fb : String) : jsOrStr (some "") fb = fb := rfl

/-- C1: for every page load whose URL carries a (nonempty) `code` query
parameter, the mount effect dispatches exactly one call to the
code-exchange endpoint, and on a success response carrying `accessToken`
and `igBusinessId` it stores both into the session state, sets
`isAuthenticated` to true, and strips the visible URL's query parameters
without navigating. -/
theorem mount_code_exchanges_once (s : AppState) (code t b : String) (body : AuthBody)
    (hc : getQueryParam s.urlQuery "code" = some code) (hne : code ≠ "")
    (ht : body.accessToken = some t) (hb : body.igBusinessId = some b) :
    (mount s (FetchResult.resp true body)).1 = [Request.authCallback code] ∧
    (mount s (FetchResult.resp true body)).2.accessToken = some t ∧
    (mount s (FetchResult.resp true body)).2.igBusinessId = some b ∧
    (mount s (FetchResult.resp true body)).2.isAuthenticated = true ∧
    (mount s (FetchResult.resp true body)).2.urlQuery = [] ∧
    (mount s (FetchResult.resp true body)).2.navTarget = s.navTarget := by
  simp [mount, hc, hne, handleAuthCallback, handleAuthCallbackPre,
    handleAuthCallbackComplete, ht, hb]

/-- Witness for C1 at a concrete load: query `?code=abc`, success body
with token "tok" and business id "biz". -/
theorem mount_code_exchanges_once_witness :
    (mount (initialState [("code", "abc")])
        (FetchResult.resp true ⟨some "tok", some "biz", none⟩)).1
      = [Request.authCallback "abc"] ∧
    (mount (initialState [("code", "abc")])
        (FetchResult.resp true ⟨some "tok", some "biz", none⟩)).2.accessToken = some "tok" ∧
    (mount (initialState [("code", "abc")])
        (FetchResult.resp true ⟨some "tok", some "biz", none⟩)).2.igBusinessId = some "biz" ∧
    (mount (initialState [("code", "abc")])
        (FetchResult.resp true ⟨some "tok", some "biz", none⟩)).2.isAuthenticated = true ∧
    (mount (initialState [("code", "abc")])
        (FetchResult.resp true ⟨some "tok", some "biz", none⟩)).2.urlQuery = [] ∧
    (mount (initialState [("code", "abc")])
        (FetchResult.resp true ⟨some "tok", some "biz", none⟩)).2.navTarget
      = (initialState [("code", "abc")]).navTarget :=
  mount_code_exchanges_once (initialState [("code", "abc")]) "abc" "tok" "biz"
    ⟨some "tok", some "biz", none⟩ (by decide) (by decide) rfl rfl

/-- C3 counterexample: on a transport failure (fetch throws, here with the
usual runtime message "Failed to fetch"), the code-exchange handler sets
the shared error to the thrown exception's message, not to the generic
"Authentication failed" text the claim requires for failures carrying no
backend error text. -/
theorem auth_transport_error_counterexample :
    (handleAuthCallback (initialState [("code", "abc")])
        (FetchResult.exn "Failed to fetch")).error = some "Failed to fetch" ∧
    ("Failed to fetch" ≠ "Authentication failed") ∧
    ("Failed to fetch" ≠ "Authentication failed. Please try again.") ∧
    (handleAuthCallback (initialState [("code", "abc")])
        (FetchResult.exn "Failed to fetch")).isAuthenticated = false :=
  ⟨rfl, by decide, by decide, rfl⟩

/-- C3 (amended): a failed code-exchange attempt with non-success HTTP
status sets the shared error to the backend-provided error text when the
body carries a nonempty one, else to the generic "Authentication failed"
message; a transport failure sets it to the thrown exception's message
when that is nonempty, else to the generic message; `isAuthenticated` is
unchanged (so remains false) on every failure. -/
theorem auth_failure_error_cases (s : AppState) (body : AuthBody) (msg e : String) :
    (body.error = some e → e ≠ "" →
      (handleAuthCallback s (FetchResult.resp false body)).error = some e) ∧
    ((body.error = none ∨ body.error = some "") →
      (handleAuthCallback s (FetchResult.resp false body)).error
        = some "Authentication failed") ∧
    (msg ≠ "" → (handleAuthCallback s (FetchResult.exn msg)).error = some msg) ∧
    (msg = "" → (handleAuthCallback s (FetchResult.exn msg)).error
        = some "Authentication failed. Please try again.") ∧
    (handleAuthCallback s (FetchResult.resp false body)).isAuthenticated
      = s.isAuthenticated ∧
    (handleAuthCallback s (FetchResult.exn msg)).isAuthenticated = s.isAuthenticated := by
  refine ⟨?_, ?_, ?_, ?_, rfl, rfl⟩
  · intro he hne
    simp [handleAuthCallback, handleAuthCallbackPre, handleAuthCallbackComplete, he,
      jsOrStr_some_ne _ _ hne, jsOrStr_some_ne]
  · rintro (he | he) <;>
      simp [handleAuthCallback, handleAuthCallbackPre, handleAuthCallbackComplete, he,
        jsOrStr_none, jsOrStr_some_empty, jsOrStr_some_ne]
  · intro hne
    simp [handleAuthCallback, handleAuthCallbackPre, handleAuthCallbackComplete,
      jsOrStr_some_ne _ _ hne]
  · intro hz
    simp [handleAuthCallback, handleAuthCallbackPre, handleAuthCallbackComplete, hz,
      jsOrStr_some_empty]

/-- Witness for C3 (amended) at concrete failures: a 401 body carrying
error "bad code", a 401 body carrying no error, and a transport failure
with message "Failed to fetch". -/
theorem auth_failure_error_cases_witness :
    (handleAuthCallback (initialState []) (FetchResult.resp false ⟨none, none, some "bad code"⟩)).error
      = some "bad code" ∧
    (handleAuthCallback (initialState []) (FetchResult.resp false ⟨none, none, none⟩)).error
      = some "Authentication failed" ∧
    (handleAuthCallback (initialState []) (FetchResult.exn "Failed to fetch")).error
      = some "Failed to fetch" ∧
    (handleAuthCallback (initialState []) (FetchResult.resp false ⟨none, none, none⟩)).isAuthenticated
      = (initialState []).isAuthenticated :=
  ⟨(auth_failure_error_cases (initialState []) ⟨none, none, some "bad code"⟩ "x" "bad code").1
      rfl (by decide),
   (auth_failure_error_cases (initialState []) ⟨none, none, none⟩ "x" "x").2.1 (Or.inl rfl),
   (auth_failure_error_cases (initialState []) ⟨none, none, none⟩ "Failed to fetch" "x").2.2.1
      (by decide),
   (auth_failure_error_cases (initialState []) ⟨none, none, none⟩ "x" "x").2.2.2.2.1⟩

/-- C7: when two metrics-fetch submissions are in flight at once, the
stored metrics body ends up being whichever response resolved last,
regardless of submission order, because each settlement overwrites state
unconditionally. -/
theorem metrics_last_write_wins (s : AppState) (b1 b2 : MetricsBody) :
    (twoInFlightSubmit s (FetchResult.resp true b1) (FetchResult.resp true b2)).metrics
      = some b2 ∧
    (twoInFlightSubmit s (FetchResult.resp true b2) (FetchResult.resp true b1)).metrics
      = some b1 :=
  ⟨rfl, rfl⟩

/-- C8: the error banner renders the error text verbatim in the error
colour class, except when the text equals exactly "This authorization
code has been used.", which gets the success-like colour class; the
special case changes nothing but the colour. -/
theorem error_banner_special_case (e : String) :
    (e = "This authorization code has been used." →
      errorBanner e = ("text-green-400", e)) ∧
    (e ≠ "This authorization code has been used." →
      errorBanner e = ("text-red-700", e)) := by
  constructor
  · intro h
    simp [errorBanner, errorBannerClass, h]
  · intro h
    simp [errorBanner, errorBannerClass, h]

/-- Witness for C8 at the special text and at an ordinary error text. -/
theorem error_banner_special_case_witness :
    errorBanner "This authorization code has been used."
      = ("text-green-400", "This authorization code has been used.") ∧
    errorBanner "bad url" = ("text-red-700", "bad url") :=
  ⟨(error_banner_special_case "This authorization code has been used.").1 rfl,
   (error_banner_special_case "bad url").2 (by decide)⟩

/-- C2: a metrics-form submission with a non-empty post URL clears the
stored metrics body in the pre-fetch mutations, dispatches one
post-metrics request, and on a non-2xx response whose body carries a
nonempty `error` text the shared error shows exactly that text (else the
generic fallback), with the metrics body still unset. -/
theorem submit_failure_clears_metrics (s : AppState) (body : MetricsBody) (e : String)
    (hp : s.postUrl ≠ "") :
    handleSubmit s (FetchResult.resp false body)
      = ([Request.postMetrics s.postUrl s.accessToken s.igBusinessId],
         handleSubmitComplete (handleSubmitPre s) (FetchResult.resp false body)) ∧
    (handleSubmitPre s).metrics = none ∧
    (handleSubmit s (FetchResult.resp false body)).2.metrics = none ∧
    (body.error = some e → e ≠ "" →
      (handleSubmit s (FetchResult.resp false body)).2.error = some e) ∧
    ((body.error = none ∨ body.error = some "") →
      (handleSubmit s (FetchResult.resp false body)).2.error
        = some "Failed to fetch post metrics") := by
  refine ⟨?_, rfl, ?_, ?_, ?_⟩
  · unfold handleSubmit
    rw [if_neg hp]
  · simp [handleSubmit, hp, handleSubmitPre, handleSubmitComplete]
  · intro he hne
    simp [handleSubmit, hp, handleSubmitPre, handleSubmitComplete, he,
      jsOrStr_some_ne _ _ hne, jsOrStr_some_ne]
  · rintro (he | he) <;>
      simp [handleSubmit, hp, handleSubmitPre, handleSubmitComplete, he, jsOrStr_none,
        jsOrStr_some_empty, jsOrStr_some_ne]

/-- Witness for C2 at a concrete submission: post URL "u", non-2xx
response with body error "bad url". -/
theorem submit_failure_clears_metrics_witness :
    (handleSubmitPre { initialState [] with postUrl := "u" }).metrics = none ∧
    (handleSubmit { initialState [] with postUrl := "u" }
        (FetchResult.resp false ⟨none, some "bad url"⟩)).2.metrics = none ∧
    (handleSubmit { initialState [] with postUrl := "u" }
        (FetchResult.resp false ⟨none, some "bad url"⟩)).2.error = some "bad url" ∧
    (handleSubmit { initialState [] with postUrl := "u" }
        (FetchResult.resp false ⟨none, none⟩)).2.error
      = some "Failed to fetch post metrics" := by
  obtain ⟨-, k1, k2, k3, -⟩ :=
    submit_failure_clears_metrics { initialState [] with postUrl := "u" }
      ⟨none, some "bad url"⟩ "bad url" (by decide)
  obtain ⟨-, -, -, -, k4⟩ :=
    submit_failure_clears_metrics { initialState [] with postUrl := "u" }
      ⟨none, none⟩ "x" (by decide)
  exact ⟨k1, k2, k3 rfl (by decide), k4 (Or.inl rfl)⟩

/-- C4: for each of the three loading-flagged network actions (code
exchange, metrics fetch, account search) the pre-fetch mutations set
`loading` to true and clear that action's error string before the request
is dispatched, the settlement clears `loading` on every outcome, and a
successful outcome leaves the action's error string unset (for account
search, provided the success body is well-formed — a success body missing
`user` or `media` makes the success-path log statements throw, which the
catch turns into a set error). -/
theorem loading_error_discipline (s : AppState) (ra : FetchResult AuthBody)
    (rm : FetchResult MetricsBody) (rs : FetchResult AccountBody)
    (ab : AuthBody) (mb : MetricsBody) (sb : AccountBody) :
    (handleAuthCallbackPre s).loading = true ∧
    (handleAuthCallbackPre s).error = none ∧
    (handleAuthCallback s ra).loading = false ∧
    (handleAuthCallback s (FetchResult.resp true ab)).error = none ∧
    (handleSubmitPre s).loading = true ∧
    (handleSubmitPre s).error = none ∧
    (s.postUrl ≠ "" → handleSubmit s rm
      = ([Request.postMetrics s.postUrl s.accessToken s.igBusinessId],
         handleSubmitComplete (handleSubmitPre s) rm)) ∧
    (handleSubmitComplete (handleSubmitPre s) rm).loading = false ∧
    (handleSubmitComplete (handleSubmitPre s) (FetchResult.resp true mb)).error = none ∧
    (handleAccountSearchPre s).loading = true ∧
    (handleAccountSearchPre s).searchError = none ∧
    (¬ (s.username = "" ∨ jsTruthy s.accessToken = false ∨ jsTruthy s.igBusinessId = false) →
      handleAccountSearch s rs
        = ([Request.searchAccount s.username s.accessToken s.igBusinessId],
           handleAccountSearchComplete (handleAccountSearchPre s) rs)) ∧
    (handleAccountSearchComplete (handleAccountSearchPre s) rs).loading = false ∧
    (sb.user.isSome = true → sb.media.isSome = true →
      (handleAccountSearchComplete (handleAccountSearchPre s)
        (FetchResult.resp true sb)).searchError = none) := by
  refine ⟨rfl, rfl, ?_, rfl, rfl, rfl, ?_, ?_, rfl, rfl, rfl, ?_, ?_, ?_⟩
  · rcases ra with ⟨ok, body⟩ | m
    · cases ok <;> rfl
    · rfl
  · intro h
    unfold handleSubmit
    rw [if_neg h]
  · rcases rm with ⟨ok, body⟩ | m
    · cases ok <;> rfl
    · rfl
  · intro h
    unfold handleAccountSearch
    rw [if_neg h]
  · rcases rs with ⟨ok, body⟩ | m
    · cases ok
      · rfl
      · by_cases h : body.user.isNone || body.media.isNone
        · simp [handleAccountSearchComplete, h]
        · simp [handleAccountSearchComplete, h]
    · rfl
  · intro hu hm
    rcases Option.isSome_iff_exists.mp hu with ⟨u, hu2⟩
    rcases Option.isSome_iff_exists.mp hm with ⟨m, hm2⟩
    simp [handleAccountSearchComplete, handleAccountSearchPre, hu2, hm2]

/-- A concrete authenticated state used as witness input: post URL "u",
username "n", token "t", business id "b". -/
def authedState : AppState :=
  { initialState [] with
    postUrl := "u"
    username := "n"
    accessToken := some "t"
    igBusinessId := some "b" }

/-- Witness for C4 at the concrete authenticated state with concrete
outcomes. -/
theorem loading_error_discipline_witness :
    handleSubmit authedState (FetchResult.exn "x")
      = ([Request.postMetrics "u" (some "t") (some "b")],
         handleSubmitComplete (handleSubmitPre authedState) (FetchResult.exn "x")) ∧
    handleAccountSearch authedState (FetchResult.exn "x")
      = ([Request.searchAccount "n" (some "t") (some "b")],
         handleAccountSearchComplete (handleAccountSearchPre authedState)
           (FetchResult.exn "x")) ∧
    (handleAccountSearchComplete (handleAccountSearchPre authedState)
        (FetchResult.resp true ⟨some ⟨"user1"⟩, some [], none, none⟩)).searchError = none := by
  obtain ⟨-, -, -, -, -, -, h7, -, -, -, -, h12, -, h14⟩ :=
    loading_error_discipline authedState
      (FetchResult.exn "x") (FetchResult.exn "x") (FetchResult.exn "x")
      ⟨none, none, none⟩ ⟨none, none⟩ ⟨some ⟨"user1"⟩, some [], none, none⟩
  exact ⟨h7 (by decide), h12 (by decide), h14 rfl rfl⟩

/-- C5: submitting the metrics form with an empty post URL, or the
account-search form with a missing username, access token, or business
id, silently aborts: no request is dispatched and the state is returned
unchanged. -/
theorem guarded_noops (s : AppState) (rm : FetchResult MetricsBody)
    (rs : FetchResult AccountBody) :
    (s.postUrl = "" → handleSubmit s rm = ([], s)) ∧
    ((s.username = "" ∨ s.accessToken = none ∨ s.igBusinessId = none) →
      handleAccountSearch s rs = ([], s)) := by
  constructor
  · intro h
    unfold handleSubmit
    rw [if_pos h]
  · intro h
    have hg : s.username = "" ∨ jsTruthy s.accessToken = false ∨
        jsTruthy s.igBusinessId = false := by
      rcases h with h | h | h
      · exact Or.inl h
      · exact Or.inr (Or.inl (by simp [jsTruthy, h]))
      · exact Or.inr (Or.inr (by simp [jsTruthy, h]))
    unfold handleAccountSearch
    rw [if_pos hg]

/-- Witness for C5 at the page-load state, where the post URL and the
username are empty and the token and business id are absent. -/
theorem guarded_noops_witness :
    handleSubmit (initialState []) (FetchResult.exn "x") = ([], initialState []) ∧
    handleAccountSearch (initialState []) (FetchResult.exn "x") = ([], initialState []) :=
  ⟨(guarded_noops (initialState []) (FetchResult.exn "x") (FetchResult.exn "x")).1 rfl,
   (guarded_noops (initialState []) (FetchResult.exn "x") (FetchResult.exn "x")).2
     (Or.inl rfl)⟩

/-- C9: the begin-login action never writes the session or result fields —
on every outcome `isAuthenticated`, the token, the business id, the post
URL, the metrics body and the account data (and the other non-error
fields) are unchanged; on failure only the shared error string is set
(to the backend error text when nonempty, else the generic fallback, or
to the thrown exception's message), and no navigation happens. -/
theorem login_never_writes_session (s : AppState) (r : FetchResult LoginBody)
    (lb : LoginBody) (msg e : String) :
    ((handleLogin s r).2.isAuthenticated = s.isAuthenticated ∧
     (handleLogin s r).2.accessToken = s.accessToken ∧
     (handleLogin s r).2.igBusinessId = s.igBusinessId ∧
     (handleLogin s r).2.postUrl = s.postUrl ∧
     (handleLogin s r).2.metrics = s.metrics ∧
     (handleLogin s r).2.accountData = s.accountData ∧
     (handleLogin s r).2.loading = s.loading ∧
     (handleLogin s r).2.searchError = s.searchError ∧
     (handleLogin s r).2.username = s.username ∧
     (handleLogin s r).2.urlQuery = s.urlQuery) ∧
    (handleLogin s (FetchResult.resp false lb)).2.navTarget = s.navTarget ∧
    (handleLogin s (FetchResult.exn msg)).2.navTarget = s.navTarget ∧
    (lb.error = some e → e ≠ "" →
      (handleLogin s (FetchResult.resp false lb)).2.error = some e) ∧
    ((lb.error = none ∨ lb.error = some "") →
      (handleLogin s (FetchResult.resp false lb)).2.error
        = some "Failed to initialize login") ∧
    (msg ≠ "" → (handleLogin s (FetchResult.exn msg)).2.error = some msg) := by
  refine ⟨?_, rfl, rfl, ?_, ?_, ?_⟩
  · rcases r with ⟨ok, body⟩ | m
    · cases ok <;> exact ⟨rfl, rfl, rfl, rfl, rfl, rfl, rfl, rfl, rfl, rfl⟩
    · exact ⟨rfl, rfl, rfl, rfl, rfl, rfl, rfl, rfl, rfl, rfl⟩
  · intro he hne
    simp [handleLogin, handleLoginPre, handleLoginComplete, he,
      jsOrStr_some_ne _ _ hne, jsOrStr_some_ne]
  · rintro (he | he) <;>
      simp [handleLogin, handleLoginPre, handleLoginComplete, he, jsOrStr_none,
        jsOrStr_some_empty, jsOrStr_some_ne]
  · intro hne
    simp [handleLogin, handleLoginPre, handleLoginComplete, jsOrStr_some_ne _ _ hne]

/-- Witness for C9 at a concrete failed login initiation (non-2xx body
with error "nope") and a transport failure. -/
theorem login_never_writes_session_witness :
    (handleLogin (initialState []) (FetchResult.resp false ⟨none, some "nope"⟩)).2.isAuthenticated
      = (initialState []).isAuthenticated ∧
    (handleLogin (initialState []) (FetchResult.resp false ⟨none, some "nope"⟩)).2.error
      = some "nope" ∧
    (handleLogin (initialState []) (FetchResult.exn "Failed to fetch")).2.error
      = some "Failed to fetch" ∧
    (handleLogin (initialState []) (FetchResult.resp false ⟨none, some "nope"⟩)).2.navTarget
      = (initialState []).navTarget := by
  obtain ⟨⟨f1, -⟩, f2, -, f3, -, f4⟩ :=
    login_never_writes_session (initialState [])
      (FetchResult.resp false ⟨none, some "nope"⟩) ⟨none, some "nope"⟩ "Failed to fetch" "nope"
  exact ⟨f1, f3 rfl (by decide), f4 (by decide), f2⟩

/-- C6 counterexample: with the view-time metric absent from the data
list, the view-time card renders the string "NaN" (the truthy result of
`NaN.toFixed(1)` bypasses the `|| 0` fallback), not the value 0 the claim
requires; the likes card by contrast does render 0. -/
theorem view_time_card_not_zero_counterexample :
    renderViewTimeCard [] = Except.ok Rendered.nanStr ∧
    Rendered.nanStr ≠ Rendered.numR 0 ∧
    Rendered.nanStr ≠ Rendered.fixed1 0 ∧
    renderPlainCard [] "likes" = Except.ok 0 :=
  ⟨rfl, by decide, by decide, rfl⟩

/-- C6 (amended): each of the four plain display cards (likes, comments,
total plays, initial plays) renders 0 when its metric name is absent from
the data list; the view-time card renders the string "NaN" when its
metric is absent (because `(undefined / 1000).toFixed(1)` is the truthy
string "NaN", so the `|| 0` fallback never applies) and, when the metric
is present with a leading value, renders that value divided by 1000 with
one decimal. -/
theorem fixed_cards_rendering (data : List MetricRecord) (r : MetricRecord) (q : ℚ)
    (rest : List MetricValueObj) :
    (findMetric data "likes" = none → renderPlainCard data "likes" = Except.ok 0) ∧
    (findMetric data "comments" = none → renderPlainCard data "comments" = Except.ok 0) ∧
    (findMetric data "ig_reels_aggregated_all_plays_count" = none →
      renderPlainCard data "ig_reels_aggregated_all_plays_count" = Except.ok 0) ∧
    (findMetric data "plays" = none → renderPlainCard data "plays" = Except.ok 0) ∧
    (findMetric data "likes" = some r → r.values = some (⟨some q⟩ :: rest) →
      renderPlainCard data "likes" = Except.ok q) ∧
    (findMetric data "ig_reels_video_view_total_time" = none →
      renderViewTimeCard data = Except.ok Rendered.nanStr) ∧
    (findMetric data "ig_reels_video_view_total_time" = some r →
      r.values = some (⟨some q⟩ :: rest) →
      renderViewTimeCard data = Except.ok (Rendered.fixed1 (q / 1000))) := by
  refine ⟨?_, ?_, ?_, ?_, ?_, ?_, ?_⟩
  · intro h
    simp [renderPlainCard, chainValue, h, Except.map]
  · intro h
    simp [renderPlainCard, chainValue, h, Except.map]
  · intro h
    simp [renderPlainCard, chainValue, h, Except.map]
  · intro h
    simp [renderPlainCard, chainValue, h, Except.map]
  · intro h hv
    simp [renderPlainCard, chainValue, h, hv, Except.map]
  · intro h
    simp [renderViewTimeCard, chainValue, h, Except.map]
  · intro h hv
    simp [renderViewTimeCard, chainValue, h, hv, Except.map]

/-- Witness for C6 at concrete data: a data list carrying only likes with
value 42, and a data list carrying only the view-time metric with value
12500. -/
theorem fixed_cards_rendering_witness :
    renderPlainCard [⟨"likes", none, some [⟨some 42⟩]⟩] "likes" = Except.ok 42 ∧
    renderPlainCard [⟨"likes", none, some [⟨some 42⟩]⟩] "comments" = Except.ok 0 ∧
    renderViewTimeCard [⟨"likes", none, some [⟨some 42⟩]⟩] = Except.ok Rendered.nanStr ∧
    renderViewTimeCard [⟨"ig_reels_video_view_total_time", none, some [⟨some 12500⟩]⟩]
      = Except.ok (Rendered.fixed1 (12500 / 1000)) := by
  obtain ⟨-, c2, -, -, c5, c6, -⟩ :=
    fixed_cards_rendering [⟨"likes", none, some [⟨some 42⟩]⟩]
      ⟨"likes", none, some [⟨some 42⟩]⟩ 42 []
  obtain ⟨-, -, -, -, -, -, c7⟩ :=
    fixed_cards_rendering [⟨"ig_reels_video_view_total_time", none, some [⟨some 12500⟩]⟩]
      ⟨"ig_reels_video_view_total_time", none, some [⟨some 12500⟩]⟩ 12500 []
  exact ⟨c5 rfl rfl, c2 rfl, c6 rfl, c7 rfl rfl⟩

/-- C10 counterexample: a stored metric record that matches a card's name
but has no `values` field makes the card's lookup throw a TypeError
(`?.values[0]` only guards the record, not its `values` field), so the
renderer faults, contradicting the claim's totality. -/
theorem missing_values_faults_counterexample :
    renderPlainCard [⟨"likes", none, none⟩] "likes" = Except.error () ∧
    chainValue [⟨"likes", none, none⟩] "likes" = Except.error () :=
  ⟨rfl, rfl⟩

/-- C10 (amended): the metric cards are rendered only when a stored
metrics body with a present `data` field exists, and the per-card lookup
is guarded against an absent record, an empty `values` list and an absent
`value` field (all rendering 0) — but a matched record whose `values`
field is absent makes the lookup fault, because the optional chain guards
the record itself, not its `values` field. -/
theorem renderer_guards (m : MetricsBody) (data : List MetricRecord) (nm : String)
    (r : MetricRecord) (rest : List MetricValueObj) :
    cardsShown none = false ∧
    (m.data = none → cardsShown (some m) = false) ∧
    (findMetric data nm = none → renderPlainCard data nm = Except.ok 0) ∧
    (findMetric data nm = some r → r.values = some [] →
      renderPlainCard data nm = Except.ok 0) ∧
    (findMetric data nm = some r → r.values = some (⟨none⟩ :: rest) →
      renderPlainCard data nm = Except.ok 0) ∧
    (findMetric data nm = some r → r.values = none →
      renderPlainCard data nm = Except.error ()) := by
  refine ⟨rfl, ?_, ?_, ?_, ?_, ?_⟩
  · intro h
    simp [cardsShown, h]
  · intro h
    simp [renderPlainCard, chainValue, h, Except.map]
  · intro h hv
    simp [renderPlainCard, chainValue, h, hv, Except.map]
  · intro h hv
    simp [renderPlainCard, chainValue, h, hv, Except.map]
  · intro h hv
    simp [renderPlainCard, chainValue, h, hv, Except.map]

/-- Witness for C10 at concrete stored bodies: a body with no `data`
field, an empty data list, a likes record with empty `values`, a likes
record whose first value object has no `value` field, and a likes record
with no `values` field. -/
theorem renderer_guards_witness :
    cardsShown (some ⟨none, none⟩) = false ∧
    renderPlainCard [] "comments" = Except.ok 0 ∧
    renderPlainCard [⟨"likes", none, some []⟩] "likes" = Except.ok 0 ∧
    renderPlainCard [⟨"likes", none, some [⟨none⟩]⟩] "likes" = Except.ok 0 ∧
    renderPlainCard [⟨"likes", none, none⟩] "likes" = Except.error () := by
  obtain ⟨-, g2, g3, -, -, -⟩ :=
    renderer_guards ⟨none, none⟩ [] "comments" ⟨"likes", none, none⟩ []
  obtain ⟨-, -, -, g4, -, -⟩ :=
    renderer_guards ⟨none, none⟩ [⟨"likes", none, some []⟩] "likes"
      ⟨"likes", none, some []⟩ []
  obtain ⟨-, -, -, -, g5, -⟩ :=
    renderer_guards ⟨none, none⟩ [⟨"likes", none, some [⟨none⟩]⟩] "likes"
      ⟨"likes", none, some [⟨none⟩]⟩ []
  obtain ⟨-, -, -, -, -, g6⟩ :=
    renderer_guards ⟨none, none⟩ [⟨"likes", none, none⟩] "likes"
      ⟨"likes", none, none⟩ []
  exact ⟨g2 rfl, g3 rfl, g4 rfl rfl, g5 rfl rfl, g6 rfl rfl⟩
